import Mathlib

/-!
Shallow embedding of the Section 75 claims service core: the eligibility
evaluator and claim classifier defined as helpers in the routes module, the
storage operations over the claims table, and the HTTP-level operations for
creating a claim and mutating its status and its evidence list.

Monetary amounts are modelled as rationals (the source parses the decimal
string with parseFloat); instants are epoch milliseconds modelled as
integers (JavaScript Date values compare by their millisecond value).
-/

namespace Section75

/-- The five status strings that the specification names as the defined
state set of the claim lifecycle. -/
def definedStates : List String :=
  ["pending", "reviewing", "approved", "rejected", "under-review"]

structure TransactionTypeChecks where
  isPurchaseOfGoodsOrServices : Bool
  isNotRestrictedTransaction : Bool
deriving DecidableEq

structure PurchaseMethodChecks where
  wasCreditCardUsed : Bool
  wasNotCashOrTransfer : Bool
deriving DecidableEq

structure TransactionValueChecks where
  overHundredPounds : Bool
  underThirtyThousandPounds : Bool
deriving DecidableEq

structure TimePeriodChecks where
  withinSixYears : Bool
deriving DecidableEq

structure ReasonForClaimChecks where
  isValidReason : Bool
  isNotChangeOfMind : Bool
deriving DecidableEq

/-- The EligibilityCheck shape from the shared schema: five named groups of
boolean sub-checks, nine leaves in total. -/
structure EligibilityCheck where
  transactionType : TransactionTypeChecks
  purchaseMethod : PurchaseMethodChecks
  transactionValue : TransactionValueChecks
  timePeriod : TimePeriodChecks
  reasonForClaim : ReasonForClaimChecks
deriving DecidableEq

/-- Return shape of performEligibilityCheck: the checks plus the derived
overall verdict. -/
structure EligibilityOutcome where
  checks : EligibilityCheck
  isEligible : Bool
deriving DecidableEq

/-- The validReasons array of performEligibilityCheck. -/
def validReasons : List String :=
  ["faulty-goods", "misrepresentation", "non-delivery", "supplier-failure"]

/-- performEligibilityCheck from the routes module. The source reads the
wall clock via new Date() in its body; the embedding passes that single
clock read as the explicit argument now, so the six-year window is
now - 6*365*24*60*60*1000 milliseconds, exactly as computed in the source. -/
def performEligibilityCheck (transactionAmount : ℚ) (transactionDate : ℤ)
    (reason : String) (now : ℤ) : EligibilityOutcome :=
  let sixYearsAgo : ℤ := now - (6 * 365 * 24 * 60 * 60 * 1000)
  let checks : EligibilityCheck :=
    { transactionType :=
        { isPurchaseOfGoodsOrServices := true
          isNotRestrictedTransaction := true }
      purchaseMethod :=
        { wasCreditCardUsed := true
          wasNotCashOrTransfer := true }
      transactionValue :=
        { overHundredPounds := decide (transactionAmount ≥ 100)
          underThirtyThousandPounds := decide (transactionAmount ≤ 30000) }
      timePeriod :=
        { withinSixYears := decide (transactionDate ≥ sixYearsAgo) }
      reasonForClaim :=
        { isValidReason := validReasons.contains reason
          isNotChangeOfMind := reason != "change-of-mind" } }
  let isEligible :=
    checks.transactionType.isPurchaseOfGoodsOrServices &&
    checks.transactionType.isNotRestrictedTransaction &&
    checks.purchaseMethod.wasCreditCardUsed &&
    checks.purchaseMethod.wasNotCashOrTransfer &&
    checks.transactionValue.overHundredPounds &&
    checks.transactionValue.underThirtyThousandPounds &&
    checks.timePeriod.withinSixYears &&
    checks.reasonForClaim.isValidReason &&
    checks.reasonForClaim.isNotChangeOfMind
  { checks := checks, isEligible := isEligible }

/-- calculateClaimClass from the routes module; the tiers of the spec are
rendered by the source as the strings "Class 1" .. "Class 4" and
"Unclassified". -/
def calculateClaimClass (amount : ℚ) : String :=
  if amount ≥ 100 ∧ amount < 1000 then "Class 1"
  else if amount ≥ 1000 ∧ amount < 5000 then "Class 2"
  else if amount ≥ 5000 ∧ amount < 10000 then "Class 3"
  else if amount ≥ 10000 ∧ amount ≤ 30000 then "Class 4"
  else "Unclassified"

/-- An evidence-file reference as the client stores it in the claim's
evidenceFiles array (name, size, content type, retrieval locator). -/
structure EvidenceFile where
  id : String
  name : String
  url : String
  size : ℤ
  contentType : String
deriving DecidableEq

/-- A row of the claims table. -/
structure Claim where
  id : String
  claimNumber : String
  customerName : String
  accountNumber : String
  transactionAmount : ℚ
  transactionDate : ℤ
  merchantName : String
  description : String
  reason : String
  status : String
  claimClass : String
  eligibilityChecks : EligibilityCheck
  isEligible : Bool
  evidenceFiles : List EvidenceFile
  createdAt : ℤ
  updatedAt : ℤ
deriving DecidableEq

/-- The customer-supplied part of a claim submission, after schema
validation and numeric parsing. -/
structure InsertClaim where
  customerName : String
  accountNumber : String
  transactionAmount : ℚ
  transactionDate : ℤ
  merchantName : String
  description : String
  reason : String
  evidenceFiles : List EvidenceFile
deriving DecidableEq

/-- String(Date.now()).slice(-6): the last six characters of the decimal
representation of the epoch-millisecond timestamp. -/
def lastSixDigits (nowMs : ℤ) : String :=
  let s := toString nowMs
  s.drop (s.length - 6)

/-- The claim-number generation scheme of DatabaseStorage.createClaim:
CLM-, the current year, and the last six digits of Date.now(). -/
def genClaimNumber (year : ℤ) (nowMs : ℤ) : String :=
  "CLM-" ++ toString year ++ "-" ++ lastSixDigits nowMs

/-- DatabaseStorage.createClaim: generates the claim number and inserts the
row. The claims table declares claim_number unique, so an insert whose
generated number already exists in the table fails (modelled as none). -/
def createClaim (db : List Claim) (ic : InsertClaim) (checks : EligibilityCheck)
    (isEligible : Bool) (claimClass status : String) (newId : String)
    (year nowMs : ℤ) : Option (Claim × List Claim) :=
  let claimNumber := genClaimNumber year nowMs
  if db.any fun c => c.claimNumber == claimNumber then none
  else
    let c : Claim :=
      { id := newId
        claimNumber := claimNumber
        customerName := ic.customerName
        accountNumber := ic.accountNumber
        transactionAmount := ic.transactionAmount
        transactionDate := ic.transactionDate
        merchantName := ic.merchantName
        description := ic.description
        reason := ic.reason
        status := status
        claimClass := claimClass
        eligibilityChecks := checks
        isEligible := isEligible
        evidenceFiles := ic.evidenceFiles
        createdAt := nowMs
        updatedAt := nowMs }
    some (c, db ++ [c])

/-- The row update performed by DatabaseStorage.updateClaimStatus:
set status and updatedAt, leave every other column alone. -/
def setStatusRow (c : Claim) (status : String) (now : ℤ) : Claim :=
  { c with status := status, updatedAt := now }

/-- DatabaseStorage.updateClaimStatus: UPDATE claims SET status, updated_at
WHERE id = given id RETURNING the updated row (ids are the primary key, so
at most one row matches). -/
def updateClaimStatus (db : List Claim) (id status : String) (now : ℤ) :
    List Claim × Option Claim :=
  ((db.map fun c => if c.id == id then setStatusRow c status now else c),
   (db.find? fun c => c.id == id).map fun c => setStatusRow c status now)

/-- The row update performed by DatabaseStorage.updateClaimEvidenceFiles:
set evidenceFiles and updatedAt, leave every other column alone. -/
def setEvidenceRow (c : Claim) (files : List EvidenceFile) (now : ℤ) : Claim :=
  { c with evidenceFiles := files, updatedAt := now }

/-- DatabaseStorage.updateClaimEvidenceFiles: UPDATE claims SET
evidence_files, updated_at WHERE id = given id RETURNING the updated row. -/
def updateClaimEvidenceFiles (db : List Claim) (id : String)
    (files : List EvidenceFile) (now : ℤ) : List Claim × Option Claim :=
  ((db.map fun c => if c.id == id then setEvidenceRow c files now else c),
   (db.find? fun c => c.id == id).map fun c => setEvidenceRow c files now)

/-- The role gate of the requireRole middleware for an authenticated
session: the session role must be a member of the allowed-roles list. -/
def requireRole (roles : List String) (sessionRole : String) : Bool :=
  roles.contains sessionRole

/-- Outcome of PATCH /api/claims/:id/status: 403 Access denied, 400 Status
is required, 404 Claim not found, or 200 with the updated claim. -/
inductive StatusPatchResult where
  | forbidden
  | invalidArgument
  | notFound
  | ok (claim : Claim)
deriving DecidableEq

/-- PATCH /api/claims/:id/status from the routes module: the
requireRole middleware admits only the Claim Processor role, then the
handler rejects a falsy status field (absent, or the empty string, which is
falsy in JavaScript), then delegates to updateClaimStatus and maps a
missing row to 404. -/
def patchClaimStatus (db : List Claim) (sessionRole : String) (id : String)
    (status : Option String) (now : ℤ) : StatusPatchResult × List Claim :=
  if !(requireRole ["Claim Processor"] sessionRole) then (.forbidden, db)
  else
    match status with
    | none => (.invalidArgument, db)
    | some s =>
      if s == "" then (.invalidArgument, db)
      else
        let r := updateClaimStatus db id s now
        match r.2 with
        | none => (.notFound, r.1)
        | some c => (.ok c, r.1)

/-- Outcome of PATCH /api/claims/:id/evidence: 400 Files must be an array,
404 Claim not found, or 200 with the updated claim. -/
inductive EvidencePatchResult where
  | invalidArgument
  | notFound
  | ok (claim : Claim)
deriving DecidableEq

/-- PATCH /api/claims/:id/evidence from the routes module: no role or
status gate at all; a non-array files field is rejected, otherwise the
evidence list is replaced unconditionally via updateClaimEvidenceFiles. -/
def patchClaimEvidence (db : List Claim) (id : String)
    (files : Option (List EvidenceFile)) (now : ℤ) :
    EvidencePatchResult × List Claim :=
  match files with
  | none => (.invalidArgument, db)
  | some fs =>
    let r := updateClaimEvidenceFiles db id fs now
    match r.2 with
    | none => (.notFound, r.1)
    | some c => (.ok c, r.1)

/-- Outcome of POST /api/claims: 403, a claim-number uniqueness conflict
surfaced by the storage layer, or 200 with the created claim. -/
inductive CreateClaimResult where
  | forbidden
  | conflict
  | ok (claim : Claim)
deriving DecidableEq

/-- POST /api/claims from the routes module: the requireRole middleware
admits only the Customer role; the handler runs the eligibility check and
the classifier on the submitted data, fixes status to pending, and inserts
via DatabaseStorage.createClaim. -/
def postClaim (db : List Claim) (sessionRole : String) (ic : InsertClaim)
    (newId : String) (year nowMs : ℤ) : CreateClaimResult × List Claim :=
  if !(requireRole ["Customer"] sessionRole) then (.forbidden, db)
  else
    let e := performEligibilityCheck ic.transactionAmount ic.transactionDate
      ic.reason nowMs
    let claimClass := calculateClaimClass ic.transactionAmount
    match createClaim db ic e.checks e.isEligible claimClass "pending" newId
        year nowMs with
    | none => (.conflict, db)
    | some (c, db2) => (.ok c, db2)

/-- A concrete submission used by the concrete-input theorems. -/
def sampleInsert : InsertClaim :=
  { customerName := "Jane Doe"
    accountNumber := "12345678"
    transactionAmount := 2500
    transactionDate := 1705276800000
    merchantName := "Acme Ltd"
    description := "Faulty laptop"
    reason := "faulty-goods"
    evidenceFiles := [] }

/-- A concrete evidence-file reference used by the concrete-input theorems. -/
def sampleFile : EvidenceFile :=
  { id := "f1"
    name := "receipt.pdf"
    url := "/api/evidence/f1"
    size := 1000
    contentType := "application/pdf" }

/-- A concrete stored claim used by the concrete-input theorems. -/
def sampleClaim : Claim :=
  { id := "claim-1"
    claimNumber := "CLM-2025-000123"
    customerName := "Jane Doe"
    accountNumber := "12345678"
    transactionAmount := 2500
    transactionDate := 1705276800000
    merchantName := "Acme Ltd"
    description := "Faulty laptop"
    reason := "faulty-goods"
    status := "pending"
    claimClass := "Class 2"
    eligibilityChecks :=
      (performEligibilityCheck 2500 1705276800000 "faulty-goods" 1705276800000).checks
    isEligible := true
    evidenceFiles := []
    createdAt := 1705276800000
    updatedAt := 1705276800000 }

/-- The sample claim moved to the terminal status approved. -/
def approvedClaim : Claim :=
  { sampleClaim with status := "approved" }

/-! Helper lemmas shared by the claim theorems. -/

/-- calculateClaimClass returns Unclassified exactly outside the closed
interval from 100 to 30000. -/
theorem calculateClaimClass_eq_unclassified_iff (a : ℚ) :
    calculateClaimClass a = "Unclassified" ↔ ¬(100 ≤ a ∧ a ≤ 30000) := by
  unfold calculateClaimClass
  split_ifs with h1 h2 h3 h4
  · simp only [String.reduceEq, false_iff, not_not]
    exact ⟨h1.1, by linarith [h1.2]⟩
  · simp only [String.reduceEq, false_iff, not_not]
    exact ⟨by linarith [h2.1], by linarith [h2.2]⟩
  · simp only [String.reduceEq, false_iff, not_not]
    exact ⟨by linarith [h3.1], by linarith [h3.2]⟩
  · simp only [String.reduceEq, false_iff, not_not]
    exact ⟨by linarith [h4.1], h4.2⟩
  · simp only [true_iff]
    rintro ⟨hlo, hhi⟩
    push_neg at h1 h2 h3 h4
    have k1 : (1000 : ℚ) ≤ a := h1 hlo
    have k2 : (5000 : ℚ) ≤ a := h2 k1
    have k3 : (10000 : ℚ) ≤ a := h3 k2
    have k4 : (30000 : ℚ) < a := h4 k3
    linarith

/-- calculateClaimClass only ever returns one of the five class strings. -/
theorem calculateClaimClass_mem (a : ℚ) :
    calculateClaimClass a ∈
      ["Class 1", "Class 2", "Class 3", "Class 4", "Unclassified"] := by
  unfold calculateClaimClass
  split_ifs <;> simp

/-- C2: for every input, the isEligible value returned by
performEligibilityCheck equals the logical AND of the nine leaf booleans in
the returned check groups, and whenever any single leaf of the returned
checks is false, isEligible is false. -/
theorem claim_C2_isEligible_eq_and_of_leaves (a : ℚ) (d : ℤ) (r : String)
    (n : ℤ) :
    ((performEligibilityCheck a d r n).isEligible =
      ((performEligibilityCheck a d r n).checks.transactionType.isPurchaseOfGoodsOrServices &&
       (performEligibilityCheck a d r n).checks.transactionType.isNotRestrictedTransaction &&
       (performEligibilityCheck a d r n).checks.purchaseMethod.wasCreditCardUsed &&
       (performEligibilityCheck a d r n).checks.purchaseMethod.wasNotCashOrTransfer &&
       (performEligibilityCheck a d r n).checks.transactionValue.overHundredPounds &&
       (performEligibilityCheck a d r n).checks.transactionValue.underThirtyThousandPounds &&
       (performEligibilityCheck a d r n).checks.timePeriod.withinSixYears &&
       (performEligibilityCheck a d r n).checks.reasonForClaim.isValidReason &&
       (performEligibilityCheck a d r n).checks.reasonForClaim.isNotChangeOfMind)) ∧
    (∀ b : Bool,
      b ∈ [(performEligibilityCheck a d r n).checks.transactionType.isPurchaseOfGoodsOrServices,
           (performEligibilityCheck a d r n).checks.transactionType.isNotRestrictedTransaction,
           (performEligibilityCheck a d r n).checks.purchaseMethod.wasCreditCardUsed,
           (performEligibilityCheck a d r n).checks.purchaseMethod.wasNotCashOrTransfer,
           (performEligibilityCheck a d r n).checks.transactionValue.overHundredPounds,
           (performEligibilityCheck a d r n).checks.transactionValue.underThirtyThousandPounds,
           (performEligibilityCheck a d r n).checks.timePeriod.withinSixYears,
           (performEligibilityCheck a d r n).checks.reasonForClaim.isValidReason,
           (performEligibilityCheck a d r n).checks.reasonForClaim.isNotChangeOfMind] →
      b = false → (performEligibilityCheck a d r n).isEligible = false) := by
  constructor
  · rfl
  · intro b hb hbf
    fin_cases hb <;> simp_all [performEligibilityCheck]

/-- Witness for C2 at a concrete input where a leaf is false: an amount of
50 falsifies overHundredPounds, and the flip implication of the theorem
yields isEligible = false there. -/
theorem claim_C2_witness :
    (performEligibilityCheck 50 0 "faulty-goods" 0).isEligible = false :=
  (claim_C2_isEligible_eq_and_of_leaves 50 0 "faulty-goods" 0).2
    (performEligibilityCheck 50 0 "faulty-goods" 0).checks.transactionValue.overHundredPounds
    (by simp) (by decide)

/-- C3: calculateClaimClass follows the interval table — Class 1 on
[100, 1000), Class 2 on [1000, 5000), Class 3 on [5000, 10000), Class 4 on
[10000, 30000] closed at both ends, Unclassified otherwise — and the
boundary values 100, 1000, 5000, 10000, 30000 map exactly per the table.
The spec's tiers Tier 1 .. Tier 4 are rendered by the source as the strings
"Class 1" .. "Class 4". -/
theorem claim_C3_classify_table (a : ℚ) :
    ((100 ≤ a ∧ a < 1000) → calculateClaimClass a = "Class 1") ∧
    ((1000 ≤ a ∧ a < 5000) → calculateClaimClass a = "Class 2") ∧
    ((5000 ≤ a ∧ a < 10000) → calculateClaimClass a = "Class 3") ∧
    ((10000 ≤ a ∧ a ≤ 30000) → calculateClaimClass a = "Class 4") ∧
    (¬(100 ≤ a ∧ a ≤ 30000) → calculateClaimClass a = "Unclassified") ∧
    calculateClaimClass 100 = "Class 1" ∧
    calculateClaimClass 1000 = "Class 2" ∧
    calculateClaimClass 5000 = "Class 3" ∧
    calculateClaimClass 10000 = "Class 4" ∧
    calculateClaimClass 30000 = "Class 4" := by
  refine ⟨?_, ?_, ?_, ?_, ?_, ?_, ?_, ?_, ?_, ?_⟩
  · rintro ⟨hlo, hhi⟩
    unfold calculateClaimClass
    rw [if_pos ⟨hlo, hhi⟩]
  · rintro ⟨hlo, hhi⟩
    unfold calculateClaimClass
    rw [if_neg (by rintro ⟨-, hb⟩; linarith), if_pos ⟨hlo, hhi⟩]
  · rintro ⟨hlo, hhi⟩
    unfold calculateClaimClass
    rw [if_neg (by rintro ⟨-, hb⟩; linarith),
      if_neg (by rintro ⟨-, hb⟩; linarith), if_pos ⟨hlo, hhi⟩]
  · rintro ⟨hlo, hhi⟩
    unfold calculateClaimClass
    rw [if_neg (by rintro ⟨-, hb⟩; linarith),
      if_neg (by rintro ⟨-, hb⟩; linarith),
      if_neg (by rintro ⟨-, hb⟩; linarith), if_pos ⟨hlo, hhi⟩]
  · exact fun h => (calculateClaimClass_eq_unclassified_iff a).2 h
  · rfl
  · rfl
  · rfl
  · rfl
  · rfl

/-- Witness for C3 at a concrete input: 2500 lies in [1000, 5000) and the
theorem's second implication classifies it as Class 2. -/
theorem claim_C3_witness :
    ((1000 : ℚ) ≤ 2500 ∧ (2500 : ℚ) < 5000) ∧
      calculateClaimClass 2500 = "Class 2" :=
  ⟨⟨by norm_num, by norm_num⟩,
    (claim_C3_classify_table 2500).2.1 ⟨by norm_num, by norm_num⟩⟩

/-- C6: the eligibility evaluator is deterministic in its four declared
arguments: two invocations with identical amount, transaction date, reason
and now values yield identical results. The source's internal new Date()
read is the explicit now argument of the embedding, so the result depends
on no state beyond these four values. -/
theorem claim_C6_evaluator_deterministic (a a' : ℚ) (d d' : ℤ)
    (r r' : String) (n n' : ℤ) (ha : a = a') (hd : d = d') (hr : r = r')
    (hn : n = n') :
    performEligibilityCheck a d r n = performEligibilityCheck a' d' r' n' := by
  subst ha hd hr hn
  rfl

/-- Witness for C6 at a concrete input. -/
theorem claim_C6_witness :
    performEligibilityCheck 2500 1705276800000 "faulty-goods" 1705276800000 =
      performEligibilityCheck 2500 1705276800000 "faulty-goods" 1705276800000 :=
  claim_C6_evaluator_deterministic 2500 2500 1705276800000 1705276800000
    "faulty-goods" "faulty-goods" 1705276800000 1705276800000 rfl rfl rfl rfl

/-- C9: the withinSixYears leaf is true exactly when the transaction date
is at least now minus 2190 days (6*365 days in milliseconds, with no
calendar-aware leap adjustment). -/
theorem claim_C9_withinSixYears_iff (a : ℚ) (r : String) (d now : ℤ) :
    (performEligibilityCheck a d r now).checks.timePeriod.withinSixYears =
        true ↔
      d ≥ now - 2190 * (24 * 60 * 60 * 1000) := by
  simp only [performEligibilityCheck, decide_eq_true_eq, ge_iff_le]
  omega

/-- C10: the conjunction of the two transactionValue leaves holds exactly
when calculateClaimClass is not Unclassified, and every eligible claim's
class is one of Class 1 .. Class 4. -/
theorem claim_C10_value_leaves_iff_classified (a : ℚ) (d : ℤ) (r : String)
    (n : ℤ) :
    (((performEligibilityCheck a d r n).checks.transactionValue.overHundredPounds &&
      (performEligibilityCheck a d r n).checks.transactionValue.underThirtyThousandPounds) =
        true ↔
      calculateClaimClass a ≠ "Unclassified") ∧
    ((performEligibilityCheck a d r n).isEligible = true →
      calculateClaimClass a ∈ ["Class 1", "Class 2", "Class 3", "Class 4"]) := by
  have hval :
      (((performEligibilityCheck a d r n).checks.transactionValue.overHundredPounds &&
        (performEligibilityCheck a d r n).checks.transactionValue.underThirtyThousandPounds) =
          true) ↔ (100 ≤ a ∧ a ≤ 30000) := by
    simp [performEligibilityCheck]
  constructor
  · rw [hval, ne_eq, calculateClaimClass_eq_unclassified_iff, not_not]
  · intro he
    have hv : 100 ≤ a ∧ a ≤ 30000 := by
      simp only [performEligibilityCheck, Bool.true_and, Bool.and_eq_true,
        decide_eq_true_eq] at he
      exact ⟨he.1.1.1.1, he.1.1.1.2⟩
    have hne : calculateClaimClass a ≠ "Unclassified" := by
      rw [ne_eq, calculateClaimClass_eq_unclassified_iff, not_not]
      exact hv
    have hm := calculateClaimClass_mem a
    simp only [List.mem_cons, List.not_mem_nil, or_false] at hm ⊢
    rcases hm with h | h | h | h | h
    · exact Or.inl h
    · exact Or.inr (Or.inl h)
    · exact Or.inr (Or.inr (Or.inl h))
    · exact Or.inr (Or.inr (Or.inr h))
    · exact absurd h hne

/-- Witness for C10 at a concrete eligible input: amount 2500 with a valid
reason and a recent date is eligible, and the theorem places its class
among the four classes. -/
theorem claim_C10_witness :
    calculateClaimClass 2500 ∈ ["Class 1", "Class 2", "Class 3", "Class 4"] :=
  (claim_C10_value_leaves_iff_classified 2500 0 "faulty-goods" 0).2 (by decide)

/-- C4: for the status-transition endpoint, an actor without the
Claim Processor role always receives Forbidden (in particular a Customer),
a processor whose request lacks a target status receives InvalidArgument,
a processor naming an unknown claim receives NotFound, and otherwise the
call succeeds with the updated claim. The source treats an empty-string
status like an absent one (JavaScript falsiness), and checks the role
first, then the status field, then claim existence. -/
theorem claim_C4_setStatus_failure_modes (db : List Claim) (role id : String)
    (st : Option String) (now : ℤ) :
    (role ≠ "Claim Processor" →
      (patchClaimStatus db role id st now).1 = StatusPatchResult.forbidden) ∧
    (role = "Claim Processor" → st = none →
      (patchClaimStatus db role id st now).1 = StatusPatchResult.invalidArgument) ∧
    (∀ s : String, role = "Claim Processor" → st = some s → s ≠ "" →
      db.find? (fun c => c.id == id) = none →
      (patchClaimStatus db role id st now).1 = StatusPatchResult.notFound) ∧
    (∀ (s : String) (c0 : Claim), role = "Claim Processor" → st = some s →
      s ≠ "" → db.find? (fun c => c.id == id) = some c0 →
      (patchClaimStatus db role id st now).1 =
        StatusPatchResult.ok (setStatusRow c0 s now)) := by
  refine ⟨?_, ?_, ?_, ?_⟩
  · intro hr
    have hb : requireRole ["Claim Processor"] role = false := by
      simp [requireRole]
      exact fun h => absurd h hr
    simp [patchClaimStatus, hb]
  · intro hrole hst
    subst hrole hst
    simp [patchClaimStatus, requireRole]
  · intro s hrole hst hs hfind
    subst hrole hst
    have hsb : (s == "") = false := beq_eq_false_iff_ne.mpr hs
    simp [patchClaimStatus, requireRole, updateClaimStatus, hsb, hfind]
  · intro s c0 hrole hst hs hfind
    subst hrole hst
    have hsb : (s == "") = false := beq_eq_false_iff_ne.mpr hs
    simp [patchClaimStatus, requireRole, updateClaimStatus, hsb, hfind]

/-- Witness for C4 at a concrete input: a Claim Processor moving the sample
claim to approved succeeds. -/
theorem claim_C4_witness :
    (patchClaimStatus [sampleClaim] "Claim Processor" "claim-1"
        (some "approved") 99).1 =
      StatusPatchResult.ok (setStatusRow sampleClaim "approved" 99) :=
  (claim_C4_setStatus_failure_modes [sampleClaim] "Claim Processor" "claim-1"
      (some "approved") 99).2.2.2 "approved" sampleClaim rfl rfl
    (by decide) (by decide)

/-- C5: a successful updateClaimStatus changes only the status field and
the modification timestamp — every other column of the row is unchanged —
and a call whose target status equals the current status is accepted and
changes nothing except the modification timestamp. -/
theorem claim_C5_update_frame (db : List Claim) (id status : String)
    (now : ℤ) (c0 : Claim)
    (hfind : db.find? (fun c => c.id == id) = some c0) :
    (updateClaimStatus db id status now).2 = some (setStatusRow c0 status now) ∧
    (setStatusRow c0 status now).status = status ∧
    (setStatusRow c0 status now).updatedAt = now ∧
    (setStatusRow c0 status now).id = c0.id ∧
    (setStatusRow c0 status now).claimNumber = c0.claimNumber ∧
    (setStatusRow c0 status now).customerName = c0.customerName ∧
    (setStatusRow c0 status now).accountNumber = c0.accountNumber ∧
    (setStatusRow c0 status now).transactionAmount = c0.transactionAmount ∧
    (setStatusRow c0 status now).transactionDate = c0.transactionDate ∧
    (setStatusRow c0 status now).merchantName = c0.merchantName ∧
    (setStatusRow c0 status now).description = c0.description ∧
    (setStatusRow c0 status now).reason = c0.reason ∧
    (setStatusRow c0 status now).claimClass = c0.claimClass ∧
    (setStatusRow c0 status now).eligibilityChecks = c0.eligibilityChecks ∧
    (setStatusRow c0 status now).isEligible = c0.isEligible ∧
    (setStatusRow c0 status now).evidenceFiles = c0.evidenceFiles ∧
    (setStatusRow c0 status now).createdAt = c0.createdAt ∧
    (status = c0.status →
      setStatusRow c0 status now = { c0 with updatedAt := now }) := by
  refine ⟨?_, rfl, rfl, rfl, rfl, rfl, rfl, rfl, rfl, rfl, rfl, rfl, rfl,
    rfl, rfl, rfl, rfl, ?_⟩
  · unfold updateClaimStatus
    rw [hfind]
    rfl
  · intro h
    subst h
    rfl

/-- Witness for C5 at a concrete input: re-applying the sample claim's own
status pending is accepted and returns the row with only updatedAt new. -/
theorem claim_C5_witness :
    (updateClaimStatus [sampleClaim] "claim-1" "pending" 99).2 =
      some (setStatusRow sampleClaim "pending" 99) :=
  (claim_C5_update_frame [sampleClaim] "claim-1" "pending" 99 sampleClaim
    (by decide)).1

/-- A successful DatabaseStorage.createClaim sets the requested status,
assigns the generated claim number, appends the row, and can only have run
when the generated number was fresh in the table. -/
theorem createClaim_some_spec (db : List Claim) (ic : InsertClaim)
    (checks : EligibilityCheck) (isE : Bool) (cls st newId : String)
    (year nowMs : ℤ) (c : Claim) (db2 : List Claim)
    (h : createClaim db ic checks isE cls st newId year nowMs =
      some (c, db2)) :
    c.status = st ∧ c.claimNumber = genClaimNumber year nowMs ∧
    db2 = db ++ [c] ∧ ∀ c0 ∈ db, c0.claimNumber ≠ c.claimNumber := by
  simp only [createClaim] at h
  split at h
  · exact absurd h (by simp)
  · next hany =>
    rw [Option.some.injEq, Prod.mk.injEq] at h
    obtain ⟨h1, h2⟩ := h
    subst h1
    refine ⟨rfl, rfl, h2.symm, ?_⟩
    intro c0 hc0 hne
    exact hany (List.any_eq_true.mpr ⟨c0, hc0, beq_iff_eq.mpr hne⟩)

/-- C1 counterexample: a claim created through the core (status pending)
and then moved by a Claim Processor to the string not-a-state — which the
endpoint accepts, since it never checks the target against the state set —
ends with a status outside the defined state set. -/
theorem claim_C1_counterexample :
    ((patchClaimStatus
        (postClaim [] "Customer" sampleInsert "claim-1" 2025 1700000000000).2
        "Claim Processor" "claim-1" (some "not-a-state") 5).2).map
        (fun c => c.status) = ["not-a-state"] ∧
    definedStates.contains "not-a-state" = false := by
  exact ⟨by decide, by decide⟩

/-- C1 amended: claim creation always initializes the status to pending,
which is in the defined state set; the status endpoint writes exactly the
requested status string with no membership check; hence the invariant that
every stored status lies in the defined state set holds precisely when
every requested target status is drawn from that set. -/
theorem claim_C1_amended_status_writes :
    (∀ (db : List Claim) (role : String) (ic : InsertClaim) (newId : String)
        (year nowMs : ℤ) (c : Claim) (db2 : List Claim),
      postClaim db role ic newId year nowMs = (CreateClaimResult.ok c, db2) →
      c.status = "pending" ∧ c.status ∈ definedStates) ∧
    (∀ (db : List Claim) (role id s : String) (now : ℤ) (c : Claim),
      (patchClaimStatus db role id (some s) now).1 = StatusPatchResult.ok c →
      c.status = s) ∧
    (∀ (db : List Claim) (role id : String) (st : Option String) (now : ℤ),
      (∀ c ∈ db, c.status ∈ definedStates) →
      (∀ s, st = some s → s ∈ definedStates) →
      ∀ c ∈ (patchClaimStatus db role id st now).2, c.status ∈ definedStates) := by
  refine ⟨?_, ?_, ?_⟩
  · intro db role ic newId year nowMs c db2 h
    unfold postClaim at h
    by_cases hb : requireRole ["Customer"] role
    · simp only [hb, Bool.not_true, Bool.false_eq_true, if_false] at h
      rcases hcc : createClaim db ic
          (performEligibilityCheck ic.transactionAmount ic.transactionDate
            ic.reason nowMs).checks
          (performEligibilityCheck ic.transactionAmount ic.transactionDate
            ic.reason nowMs).isEligible
          (calculateClaimClass ic.transactionAmount) "pending" newId year
          nowMs with _ | ⟨c', db'⟩
      · rw [hcc] at h
        simp at h
      · rw [hcc] at h
        simp only [Prod.mk.injEq, CreateClaimResult.ok.injEq] at h
        obtain ⟨h1, -⟩ := h
        subst h1
        have hs := (createClaim_some_spec _ _ _ _ _ _ _ _ _ _ _ hcc).1
        exact ⟨hs, by rw [hs]; simp [definedStates]⟩
    · simp [hb] at h
  · intro db role id s now c h
    unfold patchClaimStatus at h
    by_cases hb : requireRole ["Claim Processor"] role
    · simp only [hb, Bool.not_true, Bool.false_eq_true, if_false] at h
      by_cases hsb : (s == "") = true
      · simp [hsb] at h
      · simp only [Bool.not_eq_true] at hsb
        rcases hf : (db.find? fun c0 => c0.id == id) with _ | c0
        · simp [hsb, updateClaimStatus, hf] at h
        · simp only [hsb, updateClaimStatus, hf, Option.map_some',
            Bool.false_eq_true, if_false, StatusPatchResult.ok.injEq] at h
          rw [← h]
          rfl
    · simp [hb] at h
  · intro db role id st now hdb hst c hc
    have hmap : ∀ s : String, st = some s →
        c ∈ (db.map fun c0 =>
          if c0.id == id then setStatusRow c0 s now else c0) →
        c.status ∈ definedStates := by
      intro s hs hcm
      rcases List.mem_map.mp hcm with ⟨c1, hc1, hceq⟩
      by_cases hid : (c1.id == id) = true
      · rw [if_pos hid] at hceq
        rw [← hceq]
        exact hst s hs
      · rw [if_neg (by simp_all)] at hceq
        rw [← hceq]
        exact hdb c1 hc1
    unfold patchClaimStatus at hc
    by_cases hb : requireRole ["Claim Processor"] role
    · simp only [hb, Bool.not_true, Bool.false_eq_true, if_false] at hc
      rcases st with _ | s
      · exact hdb c hc
      · by_cases hsb : (s == "") = true
        · simp only [hsb, if_true] at hc
          exact hdb c hc
        · simp only [Bool.not_eq_true] at hsb
          simp only [hsb, Bool.false_eq_true, if_false, updateClaimStatus] at hc
          rcases hf : (db.find? fun c0 => c0.id == id) with _ | c0 <;>
            rw [hf] at hc <;>
            simp only [Option.map_some', Option.map_none'] at hc <;>
            exact hmap s rfl hc
    · simp only [hb, Bool.not_false, if_true] at hc
      exact hdb c hc

/-- Witness for C1 amended at a concrete input: the status endpoint writes
exactly the requested target approved. -/
theorem claim_C1_amended_witness :
    (setStatusRow sampleClaim "approved" 99).status = "approved" :=
  claim_C1_amended_status_writes.2.1 [sampleClaim] "Claim Processor"
    "claim-1" "approved" 99 (setStatusRow sampleClaim "approved" 99)
    (by decide)

/-- C7 counterexample: two distinct creation instants one million
milliseconds apart in the same year produce the same generated claim
number, so the generation scheme is not globally unique over invocations. -/
theorem claim_C7_counterexample :
    genClaimNumber 2025 1700000000000 = genClaimNumber 2025 1700001000000 ∧
    (1700000000000 : ℤ) ≠ 1700001000000 := by
  exact ⟨by decide, by decide⟩

/-- C7 amended: the generation scheme can emit the same number for distinct
invocations (same year and same trailing six timestamp digits), but the
table's uniqueness constraint makes such an insert fail instead of storing
a duplicate, so a successfully created claim's number differs from every
claim already stored; and no later operation changes any stored claim's
number — both update operations leave every claim number in the table
unchanged. -/
theorem claim_C7_amended_uniqueness :
    (∀ (db : List Claim) (ic : InsertClaim) (checks : EligibilityCheck)
        (isE : Bool) (cls st newId : String) (year nowMs : ℤ) (c : Claim)
        (db2 : List Claim),
      createClaim db ic checks isE cls st newId year nowMs =
        some (c, db2) →
      ∀ c0 ∈ db, c0.claimNumber ≠ c.claimNumber) ∧
    (∀ (db : List Claim) (id s : String) (now : ℤ),
      ((updateClaimStatus db id s now).1).map (fun c => c.claimNumber) =
        db.map fun c => c.claimNumber) ∧
    (∀ (db : List Claim) (id : String) (fs : List EvidenceFile) (now : ℤ),
      ((updateClaimEvidenceFiles db id fs now).1).map
          (fun c => c.claimNumber) =
        db.map fun c => c.claimNumber) := by
  refine ⟨?_, ?_, ?_⟩
  · intro db ic checks isE cls st newId year nowMs c db2 h
    exact (createClaim_some_spec _ _ _ _ _ _ _ _ _ _ _ h).2.2.2
  · intro db id s now
    unfold updateClaimStatus
    rw [List.map_map]
    refine List.map_congr_left ?_
    intro c1 _
    by_cases hid : c1.id = id <;> simp [hid, setStatusRow]
  · intro db id fs now
    unfold updateClaimEvidenceFiles
    rw [List.map_map]
    refine List.map_congr_left ?_
    intro c1 _
    by_cases hid : c1.id = id <;> simp [hid, setEvidenceRow]

/-- Witness for C7 amended at a concrete input: creating into a store that
already holds the sample claim succeeds with a number that differs from the
stored claim's number. -/
theorem claim_C7_amended_witness :
    ∃ (c : Claim) (db2 : List Claim),
      createClaim [sampleClaim] sampleInsert sampleClaim.eligibilityChecks
          true "Class 2" "pending" "claim-2" 2025 1700000000000 =
        some (c, db2) ∧
      sampleClaim.claimNumber ≠ c.claimNumber := by
  refine ⟨_, _, rfl, ?_⟩
  exact claim_C7_amended_uniqueness.1 [sampleClaim] sampleInsert
    sampleClaim.eligibilityChecks true "Class 2" "pending" "claim-2" 2025
    1700000000000 _ _ rfl sampleClaim (by simp)

/-- C8 counterexample: the evidence endpoint accepts a request against the
sample claim in the terminal status approved and replaces its evidence
list, so attachment is not blocked by a terminal status. -/
theorem claim_C8_counterexample :
    approvedClaim.status = "approved" ∧
    (patchClaimEvidence [approvedClaim] "claim-1" (some [sampleFile]) 99).1 =
      EvidencePatchResult.ok (setEvidenceRow approvedClaim [sampleFile] 99) ∧
    ((patchClaimEvidence [approvedClaim] "claim-1" (some [sampleFile]) 99).2).map
        (fun c => c.evidenceFiles) = [[sampleFile]] ∧
    approvedClaim.evidenceFiles ≠ [sampleFile] := by
  exact ⟨rfl, by decide, by decide, by decide⟩

/-- C8 amended: the evidence endpoint performs no status check at all — for
every existing claim, whatever its status (including the terminal statuses
approved and rejected), an attachEvidence request with an array body
replaces the evidence list and updates only the modification timestamp. -/
theorem claim_C8_amended_evidence_any_status (db : List Claim) (id : String)
    (fs : List EvidenceFile) (now : ℤ) (c0 : Claim)
    (hfind : db.find? (fun c => c.id == id) = some c0) :
    (patchClaimEvidence db id (some fs) now).1 =
      EvidencePatchResult.ok (setEvidenceRow c0 fs now) ∧
    (setEvidenceRow c0 fs now).evidenceFiles = fs ∧
    (setEvidenceRow c0 fs now).status = c0.status := by
  refine ⟨?_, rfl, rfl⟩
  simp [patchClaimEvidence, updateClaimEvidenceFiles, hfind]

/-- Witness for C8 amended at a concrete input: the approved sample claim's
evidence list is replaced. -/
theorem claim_C8_amended_witness :
    (patchClaimEvidence [approvedClaim] "claim-1" (some [sampleFile]) 77).1 =
      EvidencePatchResult.ok (setEvidenceRow approvedClaim [sampleFile] 77) :=
  (claim_C8_amended_evidence_any_status [approvedClaim] "claim-1"
    [sampleFile] 77 approvedClaim (by decide)).1

end Section75
